import Mathlib

/-!
Verification of the phased convergence engine (scripts/cli) against its
natural-language specification.

The Python source is shallowly embedded: each subprocess invocation made by
the orchestrator becomes an event in a trace, and the outcomes of the
external tool (exit codes, stdout, stderr) are supplied by an explicit
`World` record, so every code path of the orchestrator is a total Lean
function of the world.  Filesystem staging is embedded as a pure function
on a list-of-files model, and the path helpers of `paths.py` are embedded
as string functions.
-/

namespace ApigeeTF

/-- Substring test mirroring the Python `pat in s` operator:
`containsSub s pat` is true when `pat` occurs contiguously inside `s`. -/
def containsSub (s pat : String) : Bool :=
  decide (pat.toList <:+: s.toList)

/-- Python truthiness of an optional string: `None` and `""` are falsy
(mirrors `if not sa_email` in `run_terraform`). -/
def pyTruthy : Option String → Bool
  | none => false
  | some s => !(s == "")

/-! ## Paths (paths.py) -/

/-- Process environment inputs read by `paths.py`: the two directory
override variables and the home directory. -/
structure Env where
  dataDirOverride : Option String
  xdgCacheHome : Option String
  home : String

/-- Embedding of `get_data_dir` (paths.py 4-13): the persistent data root,
`APIGEE_TF_DATA_DIR` when set, else `~/.local/share/apigee-tf`. -/
def get_data_dir (e : Env) : String :=
  match e.dataDirOverride with
  | some d => d
  | none => e.home ++ "/.local/share/apigee-tf"

/-- Embedding of `get_cache_dir` (paths.py 15-24): the ephemeral staging
root, `$XDG_CACHE_HOME/apigee-tf` when set, else `~/.cache/apigee-tf`. -/
def get_cache_dir (e : Env) : String :=
  match e.xdgCacheHome with
  | some c => c ++ "/apigee-tf"
  | none => e.home ++ "/.cache/apigee-tf"

/-- Embedding of `get_state_path` (paths.py 26-34):
`<DATA_DIR>/<project_id>[/<suffix>]/tf/<phase>/terraform.tfstate`. -/
def get_state_path (e : Env) (projectId phase : String)
    (suffix : Option String) : String :=
  let root := get_data_dir e ++ "/" ++ projectId
  let root := match suffix with
    | some s => root ++ "/" ++ s
    | none => root
  root ++ "/tf/" ++ phase ++ "/terraform.tfstate"

/-! ## Parsed state snapshots (`terraform show -json`) -/

/-- One resource of a parsed state snapshot: its type string and the value
fields the engine reads (absent keys are `none`, mirroring `.get`). -/
structure TfResource where
  rtype : String
  billing_type : Option String
  analytics_region : Option String
  api_consumer_data_location : Option String
  location : Option String

/-- A (possibly nested) module of a parsed state snapshot: its resources
and its child modules, as walked by `update.py`. -/
inductive TfModule where
  | mk (resources : List TfResource) (children : List TfModule)

/-- Resources of a parsed module. -/
def TfModule.resources : TfModule → List TfResource
  | .mk rs _ => rs

/-- Child modules of a parsed module. -/
def TfModule.children : TfModule → List TfModule
  | .mk _ cs => cs

mutual

/-- Embedding of the recursive `has_org` walk of `update.py` (49-56): does
the module tree contain a `google_apigee_organization` resource. -/
def hasOrg : TfModule → Bool
  | .mk rs cs => rs.any (fun r => r.rtype == "google_apigee_organization") || hasOrgList cs

/-- Auxiliary walk of `hasOrg` over the child-module list. -/
def hasOrgList : List TfModule → Bool
  | [] => false
  | m :: ms => hasOrg m || hasOrgList ms

end

/-! ## The external world of one orchestrator run -/

/-- Events of one orchestrator run: each constructor is one external call
made by `core.py` / `engine.py` / `update.py` (subprocess invocations and
the ephemeral variable injection).  `mintToken` is the credential probe
the spec attributes to a handoff verifier; the source never emits it, and
the constructor exists so that the absence of polling is expressible. -/
inductive Ev where
  | stage (phase : String)
  | tfInit (phase : String)
  | bootstrapApply
  | outputQuery
  | showState
  | inject (vars : List (String × Option String))
  | stateList (addr : String)
  | tfImport (addr : String) (rid : String)
  | mainExec (command : String)
  | mintToken (success : Bool)
  deriving DecidableEq, Repr

/-- Outcomes of the external processes an orchestrator run may observe.
Each field is the result the Python code reads back from one kind of
subprocess; functions of a string argument stand for per-address or
per-path calls. -/
structure World where
  /-- Returncode of the phase-0 `terraform apply`. -/
  bootstrapExit : Nat
  /-- Human-readable output of the phase-0 apply (its summary line). -/
  bootstrapSummary : String
  /-- Returncode of `terraform output -raw service_account_email`. -/
  outputExit : Nat
  /-- Stripped stdout of that output query. -/
  outputStdout : String
  /-- Stdout of `terraform state list <addr>` per address. -/
  stateListOut : String → String
  /-- Returncode of `terraform import ... <addr> <rid>` per address. -/
  importExit : String → Nat
  /-- Stderr of that import call per address. -/
  importStderr : String → String
  /-- Returncode of the final main-phase command. -/
  mainExit : Nat
  /-- Which filesystem paths exist (`Path.exists`). -/
  fileExists : String → Bool
  /-- Returncode of `terraform show -json <path>` per state path. -/
  showExit : String → Nat
  /-- Parsed `values.root_module` of `terraform show -json <path>`;
  `none` when the output lacks those keys or cannot be parsed. -/
  showModule : String → Option TfModule

/-! ## Bootstrap and main phases (core.py) -/

/-- Embedding of `_run_bootstrap_folder` (core.py 37-91): stage the
`0-bootstrap` phase, init, apply under the ambient identity, then read the
service-account email back via `output -raw`; a nonzero exit at either
step yields `none`. -/
def runBootstrapFolder (w : World) : List Ev × Option String :=
  let evs := [Ev.stage ("0-bootstrap"), Ev.tfInit ("0-bootstrap"), Ev.bootstrapApply]
  if w.bootstrapExit ≠ 0 then (evs, none)
  else
    let evs := evs ++ [Ev.outputQuery]
    if w.outputExit ≠ 0 then (evs, none)
    else (evs, some w.outputStdout)

/-- Embedding of the inner `try_import` of `_adopt_main_resources`
(core.py 19-32): a `state list` query, then an import attempt only when the
address is not already present in the state listing; the import result is
ignored. -/
def tryImportCore (w : World) (addr rid : String) : List Ev :=
  if containsSub (w.stateListOut addr) addr then [Ev.stateList addr]
  else [Ev.stateList addr, Ev.tfImport addr rid]

/-- Embedding of `_adopt_main_resources` (core.py 15-35): blind adoption of
the organization and the network, in that fixed order. -/
def adoptMainResources (w : World) (projectId : String) : List Ev :=
  tryImportCore w ("google_apigee_organization.apigee_org")
      ("organizations/" ++ projectId)
    ++ tryImportCore w ("google_compute_network.apigee_network")
      ("projects/" ++ projectId ++ "/global/networks/apigee-network")

/-- Embedding of the main-phase tail of `run_terraform` (core.py 191-232):
after the bootstrap decision, stop if `bootstrap_only`, otherwise stage
`1-main`, inject the resolved variables when nonempty, init, run blind
adoption, and execute the main command, propagating its returncode. -/
def runMainPart (w : World) (projectId command : String)
    (vars : List (String × Option String)) (bevs : List Ev)
    (bootstrapOnly : Bool) : List Ev × Nat :=
  if bootstrapOnly then (bevs, 0)
  else
    (bevs ++ [Ev.stage ("1-main")]
      ++ (if vars ≠ [] then [Ev.inject vars] else [])
      ++ [Ev.tfInit ("1-main")]
      ++ adoptMainResources w projectId
      ++ [Ev.mainExec command],
     w.mainExit)

/-- Embedding of `run_terraform` (core.py 164-232).  When impersonation is
not skipped the bootstrap folder runs first and a falsy service-account
email (bootstrap failure, unreadable output, or empty string) aborts the
run with exit code 1 before any main-phase work. -/
def runTerraform (w : World) (projectId command : String)
    (vars : List (String × Option String))
    (skipImpersonation bootstrapOnly : Bool) : List Ev × Nat :=
  if skipImpersonation then
    runMainPart w projectId command vars [] bootstrapOnly
  else
    let b := runBootstrapFolder w
    if pyTruthy b.2 then runMainPart w projectId command vars b.1 bootstrapOnly
    else (b.1, 1)

/-! ## Variable extraction from state (engine.py 118-178) -/

/-- Python-dict insertion order update: replace the value when the key is
present, else append the pair. -/
def dictSet (d : List (String × Option String)) (k : String)
    (v : Option String) : List (String × Option String) :=
  if d.any (fun p => p.1 == k) then
    d.map (fun p => if p.1 == k then (k, v) else p)
  else d ++ [(k, v)]

/-- Key-membership test for the dict model. -/
def dictHas (d : List (String × Option String)) (k : String) : Bool :=
  d.any (fun p => p.1 == k)

/-- Embedding of the per-resource body of the extraction loop
(engine.py 150-165): organization resources contribute billing type,
analytics region and (when the consumer-data location is truthy) the
consumer data region plus an inferred control-plane code; instance
resources contribute the runtime location. -/
def extractFromResource (d : List (String × Option String))
    (r : TfResource) : List (String × Option String) :=
  let d :=
    if r.rtype == "google_apigee_organization" then
      let d := dictSet d ("apigee_billing_type") r.billing_type
      let d := dictSet d ("apigee_analytics_region") r.analytics_region
      if pyTruthy r.api_consumer_data_location then
        let loc := r.api_consumer_data_location.getD ("")
        let d := dictSet d ("consumer_data_region") (some loc)
        if containsSub loc ("northamerica") then
          dictSet d ("control_plane_location") (some ("ca"))
        else if containsSub loc ("europe") then
          dictSet d ("control_plane_location") (some ("eu"))
        else d
      else d
    else d
  if r.rtype == "google_apigee_instance" then
    dictSet d ("apigee_runtime_location") r.location
  else d

/-- Embedding of `TerraformStager.extract_vars_from_state`
(engine.py 118-178) for the default `1-main` phase, also returning the
trace of external calls it makes.  Note the source passes no suffix to
`get_state_path` here.  A missing state file yields an empty dict with no
subprocess call; a failing or unparseable `show -json` yields an empty
dict; otherwise the root-module resources are folded and the global
control-plane default is added when absent. -/
def extractVarsFromStateE (w : World) (e : Env) (projectId : String) :
    List Ev × List (String × Option String) :=
  let statePath := get_state_path e projectId ("1-main") none
  if !(w.fileExists statePath) then ([], [])
  else if w.showExit statePath ≠ 0 then ([Ev.showState], [])
  else
    let resources := match w.showModule statePath with
      | some m => m.resources
      | none => []
    let d := resources.foldl extractFromResource []
    let d :=
      if !d.isEmpty && !(dictHas d ("control_plane_location")) then
        dictSet d ("control_plane_location") (some (""))
      else d
    ([Ev.showState], d)

/-! ## The apply command (core.py 252-325) -/

/-- A validated template (schemas.py `ApigeeOrgConfig`), as consumed by the
apply command; `runtime_location` is always present after validation. -/
structure OrgTemplate where
  billing_type : String
  runtime_location : String
  analytics_region : Option String
  control_plane_location : Option String
  consumer_data_region : Option String

/-- Embedding of the flat variable map built from a template
(core.py 282-289); `or ""` collapses absent optional fields to the empty
string for the two DRZ fields. -/
def templateVars (t : OrgTemplate) (projectId : String) :
    List (String × Option String) :=
  [("apigee_billing_type", some t.billing_type),
   ("apigee_runtime_location", some t.runtime_location),
   ("apigee_analytics_region", t.analytics_region),
   ("control_plane_location", some (t.control_plane_location.getD (""))),
   ("consumer_data_region", some (t.consumer_data_region.getD (""))),
   ("gcp_project_id", some projectId)]

/-- Embedding of the `apply` command body (core.py 261-325): with a
template the template variables alone are resolved (intent mode); without
one the variables are extracted from the existing main-phase state
(maintenance mode), and an empty extraction exits with code 1 before any
phase runs. -/
def applyCmd (w : World) (e : Env) (projectId : String)
    (tpl : Option OrgTemplate)
    (skipImpersonation bootstrapOnly : Bool) : List Ev × Nat :=
  match tpl with
  | some t =>
      runTerraform w projectId ("apply") (templateVars t projectId)
        skipImpersonation bootstrapOnly
  | none =>
      let ex := extractVarsFromStateE w e projectId
      if ex.2.isEmpty then (ex.1, 1)
      else
        let r := runTerraform w projectId ("apply") ex.2
          skipImpersonation bootstrapOnly
        (ex.1 ++ r.1, r.2)

/-! ## The update command (update.py 15-79) -/

/-- The state path the update command inspects before running
(update.py 29): `<cache_dir>/<project_id>[/<suffix>]/states/1-main/terraform.tfstate`,
built from the stager staging directory (engine.py 19-23). -/
def updateCheckPath (e : Env) (projectId : String)
    (suffix : Option String) : String :=
  let sd := get_cache_dir e ++ "/" ++ projectId
  let sd := match suffix with
    | some s => sd ++ "/" ++ s
    | none => sd
  sd ++ "/states/1-main/terraform.tfstate"

/-- Embedding of the update pre-check (update.py 31-62): the organization
counts as found only when the inspected file exists, `show -json` succeeds
and parses, and the module walk finds the organization resource. -/
def orgFoundAt (w : World) (path : String) : Bool :=
  if w.fileExists path then
    if w.showExit path = 0 then
      match w.showModule path with
      | some m => hasOrg m
      | none => false
    else false
  else false

/-- Embedding of the `update` command body (update.py 18-79): exit 1 when
the pre-check finds no organization, otherwise run the main orchestration
with no injected variables and impersonation enabled. -/
def updateCmd (w : World) (e : Env) (projectId : String)
    (suffix : Option String) : List Ev × Nat :=
  if orgFoundAt w (updateCheckPath e projectId suffix) then
    runTerraform w projectId ("apply") [] false false
  else ([], 1)

/-! ## Adoption classification (import.py 232-256) -/

/-- Outcome classification of one adoption candidate, following the
branches of `try_import` in import.py. -/
inductive AdoptionOutcome where
  | imported
  | alreadyManaged
  | notFoundRemotely
  | failed (reason : String)
  deriving DecidableEq, Repr

/-- First element of the Python `splitlines()` of a string: `none` for the
empty string (whose split is the empty list, so indexing `[0]` raises),
otherwise the text up to the first newline. -/
def firstLine? (s : String) : Option String :=
  if s = "" then none
  else some (String.mk (s.toList.takeWhile (fun c => c != '\n')))

/-- Embedding of `try_import` (import.py 232-256): skip candidates already
in the state listing; otherwise import and classify: exit 0 is `imported`,
a stderr carrying the clean not-found text (or a 404) is
`notFoundRemotely`, and any other failure formats a warning from
`proc.stderr.splitlines()[0]` — yielding `failed` with the first stderr
line when one exists, and `none` when stderr is empty, modelling the
`IndexError` that the indexing raises there. -/
def tryImportClassify (w : World) (addr rid : String) :
    Option (AdoptionOutcome × List Ev) :=
  if containsSub (w.stateListOut addr) addr then
    some (.alreadyManaged, [Ev.stateList addr])
  else
    let evs := [Ev.stateList addr, Ev.tfImport addr rid]
    if w.importExit addr = 0 then some (.imported, evs)
    else if containsSub (w.importStderr addr) ("Cannot import non-existent")
        || containsSub (w.importStderr addr) ("404") then
      some (.notFoundRemotely, evs)
    else
      match firstLine? (w.importStderr addr) with
      | some line => some (.failed line, evs)
      | none => none

/-- Processing of a candidate sequence inside the import command's
enclosing `try` (import.py 154-290): candidates are classified in order;
a raised `IndexError` (the `none` branch of `tryImportClassify`)
propagates to the outer `except`, aborting the traversal — later
candidates are never reached and the command exits 1. -/
def adoptAll (w : World) : List (String × String) → Option (List AdoptionOutcome)
  | [] => some []
  | c :: cs =>
    match tryImportClassify w c.1 c.2 with
    | none => none
    | some (o, _) => (adoptAll w cs).map (fun os => o :: os)

/-! ## Spec-modelled identity-handoff notions -/

/-- Modelled from the spec: the bootstrap phase reports `changed = false`
by inspecting the human-readable summary line for a
"0 added, 0 changed, 0 destroyed" marker.  No such inspection exists in
the source tree; this definition follows the words of §4.2 of the spec. -/
def bootstrapReportsNoChange (w : World) : Bool :=
  containsSub w.bootstrapSummary ("0 added, 0 changed, 0 destroyed")

/-- Modelled from the spec: `IdentityHandoff.verified` becomes true only
after a successful `HandoffVerifier` credential probe.  The source
contains no verifier, so a trace is verified exactly when it carries a
successful mint-token probe event. -/
def handoffVerified (t : List Ev) : Bool :=
  t.contains (Ev.mintToken true)

/-- Number of handoff-verifier polling attempts (credential-mint probes)
in a trace. -/
def pollCount (t : List Ev) : Nat :=
  t.countP (fun ev => match ev with | Ev.mintToken _ => true | _ => false)

/-! ## Staging as a filesystem function (engine.py 78-259) -/

/-- A staged directory: a list of (relative path, byte content) pairs in
creation order; later entries overwrite earlier ones on collision, as with
`shutil.copy2` into the same target. -/
abbrev FileTree := List (String × String)

/-- Embedding of `_wipe_dir` (engine.py 180-185): `shutil.rmtree` followed
by `mkdir` leaves an empty directory whatever was there before. -/
def wipeDir (_t : FileTree) : FileTree := []

/-- The inputs a `stage_phase` call copies from: the package phase module
tree, the shared modules, the user variable files matched by the
allowlist, the user `*.tf` overlay files, and the explicitly injected
config files (name and content each). -/
structure StageInputs where
  phaseTf : FileTree
  sharedModules : FileTree
  userVarFiles : FileTree
  userTfFiles : FileTree
  configFiles : FileTree

/-- Text of the generated local-backend declaration
(engine.py 215-221). -/
def backendContent (statePath : String) : String :=
  "\nterraform \x7b\n  backend \"local\" \x7b\n    path = \"" ++ statePath
    ++ "\"\n  \x7d\n\x7d\n"

/-- Two-digit index formatting mirroring the `{i:02d}` of
`_inject_configs`. -/
def pad2 (i : Nat) : String :=
  if i < 10 then "0" ++ toString i else toString i

/-- Destination name of an injected config file (engine.py 228-232):
prefixed with an ordering index, and `.tfvars` sources renamed to
auto-loaded variable files. -/
def configDest (i : Nat) (name : String) : String :=
  let dest := "90_config_" ++ pad2 i ++ "_" ++ name
  if !dest.endsWith (".auto.tfvars") && !dest.endsWith (".opts")
      && name.endsWith (".tfvars") then
    "90_config_" ++ pad2 i ++ ".auto.tfvars"
  else dest

/-- Embedding of `_inject_configs` (engine.py 224-235). -/
def injectConfigs (cfgs : FileTree) (t : FileTree) : FileTree :=
  t ++ cfgs.enum.map (fun p => (configDest p.1 p.2.1, p.2.2))

/-- Embedding of `_copy_user_files` (engine.py 237-259): variable files
are copied for every phase; `*.tf` overlay files only for `1-main`, with
the reserved `_apim_` prefix excluded. -/
def copyUserFiles (phaseName : String) (inp : StageInputs)
    (t : FileTree) : FileTree :=
  t ++ inp.userVarFiles
    ++ (if phaseName == "1-main" then
          inp.userTfFiles.filter (fun f => !f.1.startsWith ("_apim_"))
        else [])

/-- Embedding of `stage_phase` (engine.py 78-108): wipe the phase staging
directory, copy the package phase tree, copy shared modules under
`modules/`, generate the backend declaration from the centralized state
path, overlay user files, and inject explicit configs. -/
def stage_phase (e : Env) (projectId : String) (suffix : Option String)
    (prev : FileTree) (phaseName : String) (inp : StageInputs) : FileTree :=
  let t := wipeDir prev
  let t := t ++ inp.phaseTf
  let t := t ++ inp.sharedModules.map (fun p => ("modules/" ++ p.1, p.2))
  let t := t ++ [(("backend.tf" : String),
    backendContent (get_state_path e projectId phaseName suffix))]
  let t := copyUserFiles phaseName inp t
  injectConfigs inp.configFiles t

/-! ## Jurisdiction inference during state inspection (mappers.py 52-66) -/

/-- Embedding of the control-plane jurisdiction inference of
`map_state_to_status` (mappers.py 52-66): for a truthy consumer-data
location the region string is matched against the substring chain, and
the documented fallback is `us`; an absent or empty location yields no
inference. -/
def inferControlPlaneLoc (consumerLoc : Option String) : Option String :=
  if pyTruthy consumerLoc then
    let l := consumerLoc.getD ("")
    if containsSub l ("northamerica") then some ("ca")
    else if containsSub l ("europe") then some ("eu")
    else if containsSub l ("australia") then some ("au")
    else if containsSub l ("asia") then some ("ap")
    else if containsSub l ("southamerica") then some ("sa")
    else if containsSub l ("me-") then some ("me")
    else if containsSub l ("in-") then some ("in")
    else some ("us")
  else none

/-! ## Concrete sample inputs used by the witness theorems -/

/-- A sample environment with both overrides set. -/
def eC : Env where
  dataDirOverride := some ("/data")
  xdgCacheHome := some ("/cache")
  home := "/home/operator"

/-- A world in which every external call succeeds: bootstrap applies
cleanly with an all-zero summary, the identity email reads back, state
listings are empty, imports succeed, and the main command exits 0. -/
def wOK : World where
  bootstrapExit := 0
  bootstrapSummary := "Apply complete! Resources: 0 added, 0 changed, 0 destroyed."
  outputExit := 0
  outputStdout := "terraform-deployer@demo.iam.gserviceaccount.com"
  stateListOut := fun _ => ""
  importExit := fun _ => 0
  importStderr := fun _ => ""
  mainExit := 0
  fileExists := fun _ => true
  showExit := fun _ => 0
  showModule := fun _ => none

/-- A world with an empty staging environment: no state file exists
anywhere; all commands would succeed if run. -/
def wEmpty : World :=
  { wOK with fileExists := fun _ => false }

/-- A world whose phase-0 bootstrap apply exits nonzero. -/
def wBootFail : World :=
  { wOK with bootstrapExit := 1 }

/-- A world where the bootstrap apply succeeds but the identity email
cannot be read back (`output -raw` exits nonzero). -/
def wOutFail : World :=
  { wOK with outputExit := 1 }

/-- An organization resource as extracted from an existing state with
runtime infrastructure in `us-central1`. -/
def orgResC1 : TfResource where
  rtype := "google_apigee_organization"
  billing_type := some ("EVALUATION")
  analytics_region := some ("us-central1")
  api_consumer_data_location := none
  location := none

/-- An instance resource located in `us-central1`. -/
def instResC1 : TfResource where
  rtype := "google_apigee_instance"
  billing_type := none
  analytics_region := none
  api_consumer_data_location := none
  location := some ("us-central1")

/-- A world whose persisted main-phase state parses to an organization
plus an instance in `us-central1`, with every command succeeding. -/
def wC1 : World :=
  { wOK with showModule := fun _ => some (TfModule.mk [orgResC1, instResC1] []) }

/-- A template asserting `runtime_location = us-east1`, conflicting with
the `us-central1` recorded in the discovered state of `wC1`. -/
def tplC1 : OrgTemplate where
  billing_type := "PAYG"
  runtime_location := "us-east1"
  analytics_region := some ("us-east1")
  control_plane_location := none
  consumer_data_region := none

/-- A world for the adoption scenarios: the organization address is
already present in the state listing, every import attempt fails, and the
failure text is the clean not-found error. -/
def wC6 : World :=
  { wOK with
      stateListOut := fun a =>
        if a == "google_apigee_organization.apigee_org" then
          "google_apigee_organization.apigee_org"
        else ""
      importExit := fun _ => 1
      importStderr := fun _ =>
        "Error: Cannot import non-existent remote object" }

/-- A world where no candidate is in the state listing and every import
attempt exits nonzero with an empty stderr — the input on which the
warning formatter of `try_import` indexes an empty line list. -/
def wCrash : World :=
  { wOK with
      stateListOut := fun _ => ""
      importExit := fun _ => 1
      importStderr := fun _ => "" }

/-- A world identical to `wCrash` except that the failing imports leave a
generic one-line error on stderr. -/
def wFailMsg : World :=
  { wOK with
      stateListOut := fun _ => ""
      importExit := fun _ => 1
      importStderr := fun _ => "Error: connection reset by peer" }

/-! ## Helper lemmas about the run traces -/

/-- The bootstrap folder emits no main-phase execution event. -/
lemma mainExec_not_mem_bootstrapEvs (w : World) (c : String) :
    Ev.mainExec c ∉ (runBootstrapFolder w).1 := by
  unfold runBootstrapFolder
  by_cases h1 : w.bootstrapExit ≠ 0
  · simp [h1]
  · by_cases h2 : w.outputExit ≠ 0 <;> simp [h1, h2]

/-- A truthy service-account email implies both bootstrap subprocesses
succeeded and the read-back email is the nonempty output. -/
lemma identity_of_pyTruthy (w : World)
    (h : pyTruthy (runBootstrapFolder w).2 = true) :
    w.bootstrapExit = 0 ∧ w.outputExit = 0 ∧ w.outputStdout ≠ ""
      ∧ (runBootstrapFolder w).2 = some w.outputStdout := by
  unfold runBootstrapFolder at h ⊢
  by_cases h1 : w.bootstrapExit ≠ 0
  · simp [h1, pyTruthy] at h
  · by_cases h2 : w.outputExit ≠ 0
    · simp [h1, h2, pyTruthy] at h
    · refine ⟨by omega, by omega, ?_, by simp [h1, h2]⟩
      simp only [h1, h2, if_false] at h
      simpa [pyTruthy] using h

/-- The main-phase execution event always occurs when the main part is
reached and `bootstrap_only` is not set. -/
lemma mainExec_mem_runMainPart (w : World) (pid cmd : String)
    (vars : List (String × Option String)) (bevs : List Ev) :
    Ev.mainExec cmd ∈ (runMainPart w pid cmd vars bevs false).1 := by
  unfold runMainPart
  simp

/-- With impersonation enabled, the whole run keeps only the bootstrap
trace and exits 1 whenever the service-account email is falsy. -/
lemma runTerraform_of_not_truthy (w : World) (pid cmd : String)
    (vars : List (String × Option String)) (bo : Bool)
    (h : pyTruthy (runBootstrapFolder w).2 = false) :
    runTerraform w pid cmd vars false bo = ((runBootstrapFolder w).1, 1) := by
  unfold runTerraform
  simp [h]

/-! ## C2: identity handoff before the main phase -/

/-- C2 (amended): with impersonation enabled, the main-phase command
executes only when the bootstrap apply succeeded, the identity email was
read back, and that email is nonempty; no further verification of the
handoff exists in the source. -/
theorem C2_main_requires_identity (w : World) (pid cmd : String)
    (vars : List (String × Option String)) (bo : Bool)
    (h : Ev.mainExec cmd ∈ (runTerraform w pid cmd vars false bo).1) :
    w.bootstrapExit = 0 ∧ w.outputExit = 0 ∧ w.outputStdout ≠ ""
      ∧ (runBootstrapFolder w).2 = some w.outputStdout := by
  by_cases hp : pyTruthy (runBootstrapFolder w).2 = true
  · exact identity_of_pyTruthy w hp
  · rw [runTerraform_of_not_truthy w pid cmd vars bo
      (Bool.not_eq_true _ ▸ hp)] at h
    exact absurd h (mainExec_not_mem_bootstrapEvs w cmd)

/-- C2 witness: at a concrete fully successful world the amended theorem
applies, with its hypothesis discharged by evaluation. -/
theorem C2_main_requires_identity_witness :
    wOK.bootstrapExit = 0 ∧ wOK.outputExit = 0
      ∧ wOK.outputStdout ≠ ""
      ∧ (runBootstrapFolder wOK).2 = some wOK.outputStdout :=
  C2_main_requires_identity wOK ("demo") ("apply") [] false (by decide)

/-- C2 counterexample: in a fully successful run with impersonation
enabled, the main-phase command executes although no handoff-verifier
probe ever ran, so the trace is not verified in the sense of the spec —
refuting the claim that the main phase only executes once
`IdentityHandoff.verified` is true. -/
theorem C2_counterexample :
    Ev.mainExec ("apply") ∈ (runTerraform wOK ("demo") ("apply") [] false false).1
      ∧ handoffVerified (runTerraform wOK ("demo") ("apply") [] false false).1 = false := by
  constructor <;> decide

/-! ## C5: bootstrap failures are fatal -/

/-- C5: with impersonation enabled, a nonzero bootstrap apply exit, or a
failure to read the identity email back after a successful apply, yields a
nil identity and the whole run exits 1 with no main-phase execution. -/
theorem C5_bootstrap_failure_fatal (w : World) (pid cmd : String)
    (vars : List (String × Option String)) (bo : Bool)
    (h : w.bootstrapExit ≠ 0 ∨ w.outputExit ≠ 0) :
    (runBootstrapFolder w).2 = none
      ∧ (runTerraform w pid cmd vars false bo).2 = 1
      ∧ ∀ c, Ev.mainExec c ∉ (runTerraform w pid cmd vars false bo).1 := by
  have hnone : (runBootstrapFolder w).2 = none := by
    unfold runBootstrapFolder
    by_cases h1 : w.bootstrapExit ≠ 0
    · simp [h1]
    · rcases h with h | h
      · exact absurd h h1
      · simp [h1, h]
  have hrun := runTerraform_of_not_truthy w pid cmd vars bo
    (by rw [hnone]; rfl)
  refine ⟨hnone, by rw [hrun], fun c => ?_⟩
  rw [hrun]
  exact mainExec_not_mem_bootstrapEvs w c

/-- C5 witness: a concrete world whose bootstrap apply exits 1 satisfies
the hypothesis, and the run exits 1 with a nil identity. -/
theorem C5_bootstrap_failure_fatal_witness :
    (runBootstrapFolder wBootFail).2 = none
      ∧ (runTerraform wBootFail ("demo") ("apply") [] false false).2 = 1
      ∧ ∀ c, Ev.mainExec c ∉ (runTerraform wBootFail ("demo") ("apply") [] false false).1 :=
  C5_bootstrap_failure_fatal wBootFail ("demo") ("apply") [] false (by decide)

/-! ## C4: no template and no state aborts before the main binary -/

/-- C4: an apply run with no template and no existing main-phase state
file exits with code 1, makes no external call at all, and in particular
never invokes the main-phase binary. -/
theorem C4_no_template_no_state_exits_one (w : World) (e : Env)
    (pid : String) (si bo : Bool)
    (h : w.fileExists (get_state_path e pid ("1-main") none) = false) :
    applyCmd w e pid none si bo = ([], 1)
      ∧ ∀ c, Ev.mainExec c ∉ (applyCmd w e pid none si bo).1 := by
  have hmain : applyCmd w e pid none si bo = ([], 1) := by
    unfold applyCmd extractVarsFromStateE
    simp [h]
  exact ⟨hmain, fun c => by rw [hmain]; simp⟩

/-- C4 witness: in the empty world no state file exists, so the apply
command exits 1 without any main-phase invocation. -/
theorem C4_no_template_no_state_exits_one_witness :
    applyCmd wEmpty eC ("demo") none false false = ([], 1)
      ∧ ∀ c, Ev.mainExec c ∉ (applyCmd wEmpty eC ("demo") none false false).1 :=
  C4_no_template_no_state_exits_one wEmpty eC ("demo") false false (by decide)

/-! ## C3: no verifier polling on the no-change path -/

/-- Poll counts add over trace concatenation. -/
lemma pollCount_append (a b : List Ev) :
    pollCount (a ++ b) = pollCount a + pollCount b := by
  simp [pollCount, List.countP_append]

/-- The blind-adoption helper makes no verifier probe. -/
lemma pollCount_tryImportCore (w : World) (addr rid : String) :
    pollCount (tryImportCore w addr rid) = 0 := by
  unfold tryImportCore
  split <;> simp [pollCount]

/-- Blind adoption of the main resources makes no verifier probe. -/
lemma pollCount_adoptMainResources (w : World) (pid : String) :
    pollCount (adoptMainResources w pid) = 0 := by
  unfold adoptMainResources
  rw [pollCount_append, pollCount_tryImportCore, pollCount_tryImportCore]

/-- The bootstrap folder makes no verifier probe. -/
lemma pollCount_bootstrapEvs (w : World) :
    pollCount (runBootstrapFolder w).1 = 0 := by
  unfold runBootstrapFolder
  by_cases h1 : w.bootstrapExit ≠ 0
  · simp [h1, pollCount]
  · by_cases h2 : w.outputExit ≠ 0 <;> simp [h1, h2, pollCount]

/-- The main part adds no verifier probe beyond its bootstrap prefix. -/
lemma pollCount_runMainPart (w : World) (pid cmd : String)
    (vars : List (String × Option String)) (bevs : List Ev) (bo : Bool) :
    pollCount (runMainPart w pid cmd vars bevs bo).1 = pollCount bevs := by
  unfold runMainPart
  split
  · rfl
  · simp only [pollCount_append, pollCount_adoptMainResources]
    split <;> simp [pollCount]

/-- No run of the orchestrator ever makes a verifier probe. -/
lemma pollCount_runTerraform (w : World) (pid cmd : String)
    (vars : List (String × Option String)) (si bo : Bool) :
    pollCount (runTerraform w pid cmd vars si bo).1 = 0 := by
  unfold runTerraform
  split
  · rw [pollCount_runMainPart]; rfl
  · dsimp only
    split
    · rw [pollCount_runMainPart, pollCount_bootstrapEvs]
    · exact pollCount_bootstrapEvs w

/-- C3: when the bootstrap apply summary carries the
"0 added, 0 changed, 0 destroyed" marker (the spec's `changed = false`
report), the run makes zero verifier polling attempts before the main
phase — indeed the source never invokes a handoff verifier at all. -/
theorem C3_no_change_no_polling (w : World) (pid cmd : String)
    (vars : List (String × Option String)) (si bo : Bool)
    (h : bootstrapReportsNoChange w = true) :
    pollCount (runTerraform w pid cmd vars si bo).1 = 0 :=
  pollCount_runTerraform w pid cmd vars si bo

/-- C3 witness: the all-zero summary world reports no change and its run
trace carries zero polling attempts. -/
theorem C3_no_change_no_polling_witness :
    bootstrapReportsNoChange wOK = true
      ∧ pollCount (runTerraform wOK ("demo") ("apply") [] false false).1 = 0 :=
  ⟨by decide, C3_no_change_no_polling wOK ("demo") ("apply") [] false false (by decide)⟩

/-! ## C1: conflicting template and discovered state -/

/-- The bootstrap folder emits no state-inspection event. -/
lemma showState_not_mem_bootstrapEvs (w : World) :
    Ev.showState ∉ (runBootstrapFolder w).1 := by
  unfold runBootstrapFolder
  by_cases h1 : w.bootstrapExit ≠ 0
  · simp [h1]
  · by_cases h2 : w.outputExit ≠ 0 <;> simp [h1, h2]

/-- The adoption helper emits no state-inspection event. -/
lemma showState_not_mem_tryImportCore (w : World) (addr rid : String) :
    Ev.showState ∉ tryImportCore w addr rid := by
  unfold tryImportCore
  split <;> simp

/-- Blind adoption emits no state-inspection event. -/
lemma showState_not_mem_adoptMainResources (w : World) (pid : String) :
    Ev.showState ∉ adoptMainResources w pid := by
  unfold adoptMainResources
  simp [List.mem_append, showState_not_mem_tryImportCore]

/-- The orchestrator itself never inspects the persisted state. -/
lemma showState_not_mem_runTerraform (w : World) (pid cmd : String)
    (vars : List (String × Option String)) (si bo : Bool) :
    Ev.showState ∉ (runTerraform w pid cmd vars si bo).1 := by
  have hmain : ∀ bevs, Ev.showState ∉ bevs →
      Ev.showState ∉ (runMainPart w pid cmd vars bevs bo).1 := by
    intro bevs hb
    unfold runMainPart
    split
    · exact hb
    · simp [List.mem_append, hb, showState_not_mem_adoptMainResources]
  unfold runTerraform
  split
  · exact hmain [] (by simp)
  · dsimp only
    split
    · exact hmain _ (showState_not_mem_bootstrapEvs w)
    · exact showState_not_mem_bootstrapEvs w

/-- The bootstrap folder emits no variable-injection event. -/
lemma inject_not_mem_bootstrapEvs (w : World)
    (vs : List (String × Option String)) :
    Ev.inject vs ∉ (runBootstrapFolder w).1 := by
  unfold runBootstrapFolder
  by_cases h1 : w.bootstrapExit ≠ 0
  · simp [h1]
  · by_cases h2 : w.outputExit ≠ 0 <;> simp [h1, h2]

/-- The adoption helper emits no variable-injection event. -/
lemma inject_not_mem_tryImportCore (w : World) (addr rid : String)
    (vs : List (String × Option String)) :
    Ev.inject vs ∉ tryImportCore w addr rid := by
  unfold tryImportCore
  split <;> simp

/-- Blind adoption emits no variable-injection event. -/
lemma inject_not_mem_adoptMainResources (w : World) (pid : String)
    (vs : List (String × Option String)) :
    Ev.inject vs ∉ adoptMainResources w pid := by
  unfold adoptMainResources
  simp [List.mem_append, inject_not_mem_tryImportCore]

/-- The only variables ever injected by a run are the resolved variables
it was invoked with. -/
lemma inject_mem_runTerraform (w : World) (pid cmd : String)
    (vars vs : List (String × Option String)) (si bo : Bool)
    (h : Ev.inject vs ∈ (runTerraform w pid cmd vars si bo).1) :
    vs = vars := by
  have hmain : ∀ bevs, Ev.inject vs ∉ bevs →
      Ev.inject vs ∈ (runMainPart w pid cmd vars bevs bo).1 → vs = vars := by
    intro bevs hb hm
    unfold runMainPart at hm
    split at hm
    · exact absurd hm hb
    · simp only [List.mem_append] at hm
      rcases hm with ((((hm | hm) | hm) | hm) | hm) | hm
      · exact absurd hm hb
      · simp at hm
      · by_cases hv : vars ≠ []
        · rw [if_pos hv] at hm
          simpa using hm
        · rw [if_neg hv] at hm
          simp at hm
      · simp at hm
      · exact absurd hm (inject_not_mem_adoptMainResources w pid vs)
      · simp at hm
  unfold runTerraform at h
  split at h
  · exact hmain [] (by simp) h
  · dsimp only at h
    split at h
    · exact hmain _ (inject_not_mem_bootstrapEvs w vs) h
    · exact absurd h (inject_not_mem_bootstrapEvs w vs)

/-- C1 counterexample: a concrete run where the template asserts
`runtime_location = us-east1` while the extractable state records
`us-central1` — yet the main-phase execution call occurs (with the
template variables), instead of the abort before execution the claim
asserts. -/
theorem C1_counterexample :
    ("apigee_runtime_location", some ("us-central1"))
        ∈ (extractVarsFromStateE wC1 eC ("demo")).2
      ∧ ("apigee_runtime_location", some ("us-east1"))
        ∈ templateVars tplC1 ("demo")
      ∧ Ev.mainExec ("apply")
        ∈ (applyCmd wC1 eC ("demo") (some tplC1) false false).1 := by
  refine ⟨by decide, by decide, by decide⟩

/-- C1 (amended): when a template is supplied, the discovered/extracted
state is never consulted and no merge of the two sources happens — the
run never inspects the persisted state and any injected variable set is
exactly the template's; the orchestrator performs no conflict detection
and does not abort before the main-phase command. -/
theorem C1_template_mode_never_merges (w : World) (e : Env) (pid : String)
    (tpl : OrgTemplate) (si bo : Bool) :
    Ev.showState ∉ (applyCmd w e pid (some tpl) si bo).1
      ∧ (∀ vs, Ev.inject vs ∈ (applyCmd w e pid (some tpl) si bo).1 →
          vs = templateVars tpl pid) := by
  unfold applyCmd
  exact ⟨showState_not_mem_runTerraform w pid ("apply") (templateVars tpl pid) si bo,
    fun vs h => inject_mem_runTerraform w pid ("apply") (templateVars tpl pid) vs si bo h⟩

/-- C1 witness: at the concrete conflicting input the amended theorem
yields that the state was never inspected, and the injected variable set
of that run is the template's. -/
theorem C1_template_mode_never_merges_witness :
    Ev.showState ∉ (applyCmd wC1 eC ("demo") (some tplC1) false false).1
      ∧ templateVars tplC1 ("demo") = templateVars tplC1 ("demo") :=
  ⟨(C1_template_mode_never_merges wC1 eC ("demo") tplC1 false false).1,
    (C1_template_mode_never_merges wC1 eC ("demo") tplC1 false false).2
      (templateVars tplC1 ("demo")) (by decide)⟩

/-! ## C6: best-effort adoption and the empty-stderr crash -/

/-- C6: the classification itself behaves as claimed — a candidate
already in the managed state is skipped without an import attempt, and a
clean not-found failure is classified `notFoundRemotely` — but the
best-effort guarantee fails at the concrete failing input: a candidate
whose import exits nonzero with empty stderr makes the warning formatter
of `try_import` index an empty line list (`IndexError`), aborting the
traversal before the remaining candidates, whereas the same failure with
a one-line stderr is recorded as `failed` and processing continues over
every candidate. -/
theorem C6_empty_stderr_import_crash :
    tryImportClassify wC6 ("google_apigee_organization.apigee_org")
        ("organizations/demo")
      = some (.alreadyManaged,
          [Ev.stateList ("google_apigee_organization.apigee_org")])
      ∧ (tryImportClassify wC6 ("google_compute_network.apigee_network")
          ("projects/demo/global/networks/apigee-network")).map Prod.fst
        = some .notFoundRemotely
      ∧ tryImportClassify wCrash ("google_compute_network.apigee_network")
          ("projects/demo/global/networks/apigee-network") = none
      ∧ adoptAll wCrash
          [("google_compute_network.apigee_network",
            "projects/demo/global/networks/apigee-network"),
           ("google_apigee_organization.apigee_org", "organizations/demo")]
        = none
      ∧ adoptAll wFailMsg
          [("google_compute_network.apigee_network",
            "projects/demo/global/networks/apigee-network"),
           ("google_apigee_organization.apigee_org", "organizations/demo")]
        = some [.failed ("Error: connection reset by peer"),
                .failed ("Error: connection reset by peer")] := by
  refine ⟨by decide, by decide, by decide, by decide, by decide⟩

/-! ## C7: idempotent staging -/

/-- C7: staging the same phase twice with identical inputs yields an
identical staged tree — the wipe discards everything the first call left
behind — and in particular a byte-identical generated backend
declaration. -/
theorem C7_staging_idempotent (e : Env) (pid : String)
    (sfx : Option String) (prev : FileTree) (phase : String)
    (inp : StageInputs) :
    stage_phase e pid sfx (stage_phase e pid sfx prev phase inp) phase inp
      = stage_phase e pid sfx prev phase inp
    ∧ (stage_phase e pid sfx (stage_phase e pid sfx prev phase inp) phase inp).lookup
        ("backend.tf")
      = (stage_phase e pid sfx prev phase inp).lookup ("backend.tf") :=
  ⟨rfl, rfl⟩

/-! ## C8: the backend path is a pure function of the staging key -/

/-- C8: for a fixed environment, the staged tree always carries the
generated backend declaration targeting
`get_state_path (project_id, phase, suffix)`, whatever the previous
directory contents and the other staging inputs were — so re-staging the
same phase for the same project and suffix always targets the same state
file. -/
theorem C8_backend_path_pure (e : Env) (pid phase : String)
    (sfx : Option String) (prev1 prev2 : FileTree)
    (inp1 inp2 : StageInputs) :
    ("backend.tf", backendContent (get_state_path e pid phase sfx))
        ∈ stage_phase e pid sfx prev1 phase inp1
      ∧ ("backend.tf", backendContent (get_state_path e pid phase sfx))
        ∈ stage_phase e pid sfx prev2 phase inp2 := by
  constructor <;>
    · unfold stage_phase copyUserFiles injectConfigs wipeDir
      simp [List.mem_append]

/-! ## C9: jurisdiction inference by substring matching -/

/-- C9: for every nonempty consumer-data-region string, the inferred
jurisdiction follows the substring chain — `northamerica` gives `ca`,
`europe` (when `northamerica` is absent) gives `eu` — and the inference
always produces a value; when none of the known region markers matches,
the documented fallback `us` is produced rather than no value. -/
theorem C9_jurisdiction_inference (l : String) (h : l ≠ "") :
    (containsSub l ("northamerica") = true →
        inferControlPlaneLoc (some l) = some ("ca"))
      ∧ (containsSub l ("northamerica") = false →
          containsSub l ("europe") = true →
          inferControlPlaneLoc (some l) = some ("eu"))
      ∧ (∃ c, inferControlPlaneLoc (some l) = some c)
      ∧ (containsSub l ("northamerica") = false →
          containsSub l ("europe") = false →
          containsSub l ("australia") = false →
          containsSub l ("asia") = false →
          containsSub l ("southamerica") = false →
          containsSub l ("me-") = false →
          containsSub l ("in-") = false →
          inferControlPlaneLoc (some l) = some ("us")) := by
  have hp : pyTruthy (some l) = true := by
    simp [pyTruthy, h]
  refine ⟨fun h1 => ?_, fun h1 h2 => ?_, ?_, fun h1 h2 h3 h4 h5 h6 h7 => ?_⟩
  · simp [inferControlPlaneLoc, hp, h1]
  · simp [inferControlPlaneLoc, hp, h1, h2]
  · unfold inferControlPlaneLoc
    simp only [hp, if_true]
    split
    · exact ⟨_, rfl⟩
    · split
      · exact ⟨_, rfl⟩
      · split
        · exact ⟨_, rfl⟩
        · split
          · exact ⟨_, rfl⟩
          · split
            · exact ⟨_, rfl⟩
            · split
              · exact ⟨_, rfl⟩
              · split
                · exact ⟨_, rfl⟩
                · exact ⟨_, rfl⟩
  · simp [inferControlPlaneLoc, hp, h1, h2, h3, h4, h5, h6, h7]

/-- C9 witness: the chain evaluated at the three representative concrete
regions — a North-American region infers `ca`, a European one infers
`eu`, and an unknown region falls back to `us`. -/
theorem C9_jurisdiction_inference_witness :
    inferControlPlaneLoc (some ("northamerica-northeast1")) = some ("ca")
      ∧ inferControlPlaneLoc (some ("europe-west1")) = some ("eu")
      ∧ inferControlPlaneLoc (some ("nowhere1")) = some ("us") :=
  ⟨(C9_jurisdiction_inference ("northamerica-northeast1") (by decide)).1 (by decide),
   (C9_jurisdiction_inference ("europe-west1") (by decide)).2.1 (by decide) (by decide),
   (C9_jurisdiction_inference ("nowhere1") (by decide)).2.2.2 (by decide)
     (by decide) (by decide) (by decide) (by decide) (by decide) (by decide)⟩

/-! ## C10: the update pre-check path versus the backend path -/

/-- Appending distinct known suffixes to arbitrary character lists never
yields equal lists: position 26 from the right differs. -/
lemma listPathSufNe (a b : List Char) :
    a ++ ("/states/1-main/terraform.tfstate").toList
      ≠ b ++ ("/tf/1-main/terraform.tfstate").toList := by
  intro h
  have h2 := congrArg List.reverse h
  simp only [List.reverse_append] at h2
  have h3 := congrArg (fun l => l[26]?) h2
  simp only at h3
  rw [List.getElem?_append_left (by decide),
    List.getElem?_append_left (by decide)] at h3
  revert h3
  decide

/-- String version of `listPathSufNe`. -/
lemma strPathSufNe (a b : String) :
    a ++ "/states/1-main/terraform.tfstate"
      ≠ b ++ "/tf/1-main/terraform.tfstate" := by
  intro h
  have h2 : (a ++ "/states/1-main/terraform.tfstate").data
      = (b ++ "/tf/1-main/terraform.tfstate").data := congrArg String.data h
  simp only [String.data_append] at h2
  exact listPathSufNe a.data b.data (by simpa using h2)

/-- String append is associative. -/
lemma strAppendAssoc (a b c : String) : a ++ b ++ c = a ++ (b ++ c) := by
  apply String.ext
  simp [String.data_append]

/-- The persisted main-phase backend path in canonical suffix form. -/
lemma get_state_path_main (e : Env) (pid : String) (sfx : Option String) :
    get_state_path e pid ("1-main") sfx
      = (match sfx with
          | some s => get_data_dir e ++ "/" ++ pid ++ "/" ++ s
          | none => get_data_dir e ++ "/" ++ pid)
        ++ "/tf/1-main/terraform.tfstate" := by
  have hlit : ("/tf/" : String) ++ ("1-main" ++ "/terraform.tfstate")
      = "/tf/1-main/terraform.tfstate" := by decide
  unfold get_state_path
  cases sfx <;>
    · dsimp only
      rw [strAppendAssoc, strAppendAssoc, hlit]

/-- C10: the state path the update pre-check inspects (under the cache
root, in a `states` directory) is a different path from the backend state
path staged for the main phase (under the data root, in a `tf`
directory), for every environment, project and suffix; consequently when
no parseable state with an organization exists at the cache-side path the
update command exits 1 without invoking the main phase, whatever the
backend state file contains. -/
theorem C10_update_precheck_path_distinct (e : Env) (pid : String)
    (sfx : Option String) (w : World)
    (h : orgFoundAt w (updateCheckPath e pid sfx) = false) :
    updateCheckPath e pid sfx ≠ get_state_path e pid ("1-main") sfx
      ∧ updateCmd w e pid sfx = ([], 1)
      ∧ ∀ c, Ev.mainExec c ∉ (updateCmd w e pid sfx).1 := by
  have hne : updateCheckPath e pid sfx ≠ get_state_path e pid ("1-main") sfx := by
    rw [get_state_path_main]
    unfold updateCheckPath
    cases sfx <;>
      · dsimp only
        exact strPathSufNe _ _
  have hcmd : updateCmd w e pid sfx = ([], 1) := by
    unfold updateCmd
    simp [h]
  exact ⟨hne, hcmd, fun c => by rw [hcmd]; simp⟩

/-- C10 witness: in the empty world the cache-side pre-check finds no
organization and the update command exits 1 without a main-phase call. -/
theorem C10_update_precheck_path_distinct_witness :
    updateCheckPath eC ("demo") none ≠ get_state_path eC ("demo") ("1-main") none
      ∧ updateCmd wEmpty eC ("demo") none = ([], 1)
      ∧ ∀ c, Ev.mainExec c ∉ (updateCmd wEmpty eC ("demo") none).1 :=
  C10_update_precheck_path_distinct eC ("demo") none wEmpty (by decide)

end ApigeeTF
